import Mathlib

/-!
Verification of the workout-project chat orchestrator (src/workout.py) and
workout-history analysis page (src/analysis.py).

The Python code is shallowly embedded: every external effect (OpenAI chat
completions, the API Ninjas HTTP transport, Streamlit session state) is passed
in explicitly, with `Except String` standing for "the call either returns a
value or raises an exception whose text is the error string".  Strings are
Lean strings (Python slicing `s[:n]` acts on the character list, matching
Python's code-point slicing); calendar dates are modelled at day resolution as
a day index `Nat`, which is the resolution the log uses and the resolution at
which `(max - min).days` operates.
-/

/-- A chat message dictionary with a `role` and a `content` field, as built
throughout src/workout.py. -/
structure Message where
  role : String
  content : String
  deriving DecidableEq, Repr

/-- An exercise record returned by the API Ninjas lookup.  Only the two fields
the orchestrator reads (`ex['name']`, `ex['instructions']`, src/workout.py
line 135) are modelled. -/
structure Exercise where
  name : String
  instructions : String
  deriving DecidableEq, Repr

/-- Python string slicing `s[:n]`: the first `n` characters (all of `s` when it
is shorter). -/
def pyslice (s : String) (n : Nat) : String := ⟨s.data.take n⟩

/-- Python `str.lower()`: per-character lower-casing.  `Char.toLower`
lower-cases the ASCII range, which covers every label this program handles. -/
def pyLower (s : String) : String := ⟨s.data.map Char.toLower⟩

/-- The request `get_exercise_info` sends: URL, the `X-Api-Key` header value and
the `muscle` query parameter (src/workout.py lines 25-27). -/
structure HttpRequest where
  url : String
  api_key_header : String
  muscle_param : String
  deriving DecidableEq, Repr

/-- `build_exercise_request` assembles the request of src/workout.py
lines 25-27: fixed URL, the API-key header, and `muscle.lower()` as the
`muscle` parameter. -/
def build_exercise_request (api_key muscle : String) : HttpRequest :=
  { url := "https://api.api-ninjas.com/v1/exercises"
    api_key_header := api_key
    muscle_param := pyLower muscle }

/-- `get_exercise_info` (src/workout.py lines 23-35).  `transport` models
`requests.get` followed by `raise_for_status()` and `.json()`: it yields the
decoded record list on a 2xx response and an error string when the transport
fails or the status is non-2xx (both surface as a raised
`requests.exceptions.RequestException`).  The except-branch reports the error
via `st.error` — modelled as the `Option String` component — and returns the
empty list. -/
def get_exercise_info (muscle : String)
    (transport : HttpRequest → Except String (List Exercise))
    (api_key : String) : List Exercise × Option String :=
  match transport (build_exercise_request api_key muscle) with
  | .ok records => (records, none)
  | .error e => ([], some ("Error fetching exercise data: " ++ e))

/-- The result of `generate_chat_response`: the returned text together with the
error surfaced through `st.error` (if any). -/
structure ChatResponse where
  text : String
  surfaced_error : Option String
  deriving DecidableEq, Repr

/-- The fixed apologetic string returned by `generate_chat_response` when the
completion call fails (src/workout.py line 96). -/
def fallback_response : String :=
  "I'm having trouble generating a response right now. Please try again."

/-- `generate_chat_response` (src/workout.py lines 70-96).  `completion` models
the whole `client.chat.completions.create` call including the iteration over
the stream: `.ok text` is the (fully accumulated) response content, `.error e`
any exception raised inside the `try`, mid-stream ones included.  On failure
the function surfaces the error and returns `fallback_response`. -/
def generate_chat_response (completion : Except String String) : ChatResponse :=
  match completion with
  | .ok text => { text := text, surfaced_error := none }
  | .error e =>
      { text := fallback_response
        surfaced_error := some ("Error generating response: " ++ e) }

/-- The classification instruction of `extract_muscle_group`
(src/workout.py line 102). -/
def extract_system_instruction : String :=
  "You are a fitness expert. Extract the muscle group from the following text. Reply with ONLY the muscle group name. If no muscle group is mentioned, reply with 'none'."

/-- The two-message prompt `extract_muscle_group` sends
(src/workout.py lines 101-104). -/
def extract_prompt (text : String) : List Message :=
  [{ role := "system", content := extract_system_instruction },
   { role := "user", content := text }]

/-- `extract_muscle_group` (src/workout.py lines 98-114).  `complete` models
`client.chat.completions.create` followed by `response.choices[0].message.content`;
any exception anywhere in the `try` block (network, auth, malformed response)
is `.error`, and the except-branch returns the sentinel `"none"`.  On success
the result is the lower-cased response content, unvalidated. -/
def extract_muscle_group (text : String)
    (complete : List Message → Except String String) : String :=
  match complete (extract_prompt text) with
  | .ok content => pyLower content
  | .error _ => "none"

/-- One line of the exercise list (src/workout.py line 135):
`f"• {ex['name']}: {ex['instructions'][:100]}..."`. -/
def exercise_item (ex : Exercise) : String :=
  "• " ++ ex.name ++ ": " ++ pyslice ex.instructions 100 ++ "..."

/-- The list-comprehension part of `exercise_info` (src/workout.py
lines 134-137): one formatted line for each of the first three records. -/
def exercise_items (exercises : List Exercise) : List String :=
  (exercises.take 3).map exercise_item

/-- `exercise_info` (src/workout.py lines 134-137): the newline-joined
exercise list. -/
def exercise_info (exercises : List Exercise) : String :=
  String.intercalate "\n" (exercise_items exercises)

/-- The system content of the exercises-found branch (src/workout.py
lines 140-143), with the triple-quoted string's literal newlines, indentation
and trailing spaces reproduced. -/
def system_full (equipment : List String) : String :=
  "You are a knowledgeable and friendly fitness instructor. \n                Available equipment: "
    ++ String.intercalate ", " equipment
    ++ ". \n                Provide helpful, encouraging advice about exercises and suggest exercises using available equipment. \n                Keep responses concise and engaging."

/-- The system content of the no-match branch (src/workout.py lines 149-150). -/
def system_nomatch (equipment : List String) : String :=
  "You are a knowledgeable and friendly fitness instructor.\n                Available equipment: "
    ++ String.intercalate ", " equipment ++ "."

/-- The system content of the no-muscle-group branch (src/workout.py
lines 156-157; one indentation level less than the no-match branch). -/
def system_plain (equipment : List String) : String :=
  "You are a knowledgeable and friendly fitness instructor.\n            Available equipment: "
    ++ String.intercalate ", " equipment ++ "."

/-- The synthetic assistant content of the exercises-found branch
(src/workout.py line 145). -/
def found_content (muscle_group info : String) : String :=
  "I found some exercises for " ++ muscle_group ++ ". Here are the details:\n" ++ info

/-- The synthetic assistant content of the no-match branch
(src/workout.py line 152). -/
def nomatch_content (muscle_group : String) : String :=
  "While I couldn't find specific exercises for " ++ muscle_group
    ++ " in my database, I can provide general fitness advice based on our available equipment."

/-- The `messages` construction of the Chat Orchestrator (src/workout.py
lines 131-159): a three-way branch on the extraction result and the lookup
result.  `equipment` is the equipment-name column of the CSV
(`get_available_equipment()`). -/
def build_messages (equipment : List String) (prompt muscle_group : String)
    (exercises : List Exercise) : List Message :=
  if muscle_group ≠ "none" then
    if exercises ≠ [] then
      [{ role := "system", content := system_full equipment },
       { role := "user", content := prompt },
       { role := "assistant", content := found_content muscle_group (exercise_info exercises) }]
    else
      [{ role := "system", content := system_nomatch equipment },
       { role := "user", content := prompt },
       { role := "assistant", content := nomatch_content muscle_group }]
  else
    [{ role := "system", content := system_plain equipment },
     { role := "user", content := prompt }]

/-- One full turn of the Chat Orchestrator (src/workout.py lines 123-163):
append the user turn to the session transcript, extract the muscle group, look
up exercises when one was extracted, build the prompt, generate the response
and append it as the assistant turn.  The returned list is the persisted
`st.session_state.messages`. -/
def chat_turn (equipment : List String) (api_key : String)
    (history : List Message) (prompt : String)
    (extract_complete : List Message → Except String String)
    (transport : HttpRequest → Except String (List Exercise))
    (chat_complete : List Message → Except String String) : List Message :=
  let history1 := history ++ [{ role := "user", content := prompt }]
  let muscle_group := extract_muscle_group prompt extract_complete
  let exercises :=
    if muscle_group ≠ "none" then (get_exercise_info muscle_group transport api_key).1
    else []
  let messages := build_messages equipment prompt muscle_group exercises
  let response := (generate_chat_response (chat_complete messages)).text
  history1 ++ [{ role := "assistant", content := response }]

/-- One row of the workout-log DataFrame (src/analysis.py).  `date` is the day
index of the entry's calendar date (day resolution, as in the JSON log). -/
structure Entry where
  date : Nat
  exercise_name : String
  muscle_group : String
  workout_type : String
  difficulty : String
  deriving DecidableEq, Repr

/-- The `df['date']` column. -/
def dateColumn (entries : List Entry) : List Nat := entries.map (·.date)

/-- Rendering of a day index by `strftime('%Y-%m-%d')`; the calendar formatting
itself is abbreviated to an injective rendering of the day index, which no
claim inspects. -/
def fmtDate (d : Nat) : String := toString d

/-- `.strftime('%Y-%m-%d')` applied to `df['date'].min()` / `.max()`
(src/analysis.py lines 18-19): on an empty date column the pandas reduction
yields `NaT`, and `NaT.strftime` raises
`ValueError: NaTType does not support strftime`. -/
def strftime_nat : Option Nat → Except String String
  | none => .error "NaTType does not support strftime"
  | some d => .ok (fmtDate d)

/-- `total_days` (src/analysis.py line 20): `(max - min).days + 1`, the
inclusive span of the date column.  On the empty column the value is
irrelevant (the function has already raised before using it). -/
def total_days (entries : List Entry) : Nat :=
  (dateColumn entries).max?.getD 0 - (dateColumn entries).min?.getD 0 + 1

/-- `total_workouts` (src/analysis.py line 21): `len(df)`. -/
def total_workouts (entries : List Entry) : Nat := entries.length

/-- `days_active` (src/analysis.py line 22): `df['date'].nunique()`, the number
of distinct dates. -/
def days_active (entries : List Entry) : Nat := (dateColumn entries).dedup.length

/-- `value_counts().to_dict()` on a column: the finite mapping from each value
occurring in the column to its number of occurrences, as an association list.
(`value_counts` orders its keys by descending count before `to_dict`; the key
order of the resulting dict is not part of the mapping and no claim inspects
it, so the keys are listed in first-occurrence order here.) -/
def value_counts_dict (vals : List String) : List (String × Nat) :=
  vals.dedup.map (fun v => (v, vals.count v))

/-- `muscle_groups` (src/analysis.py line 23). -/
def muscle_groups (entries : List Entry) : List (String × Nat) :=
  value_counts_dict (entries.map (·.muscle_group))

/-- `workout_types` (src/analysis.py line 24). -/
def workout_types (entries : List Entry) : List (String × Nat) :=
  value_counts_dict (entries.map (·.workout_type))

/-- `difficulty_levels` (src/analysis.py line 25). -/
def difficulty_levels (entries : List Entry) : List (String × Nat) :=
  value_counts_dict (entries.map (·.difficulty))

/-- Python `str(dict)` rendering of a frequency table, used when the prompt
f-string interpolates the `value_counts` dictionaries. -/
def pyDict (l : List (String × Nat)) : String :=
  "\x7b" ++ String.intercalate ", "
      (l.map (fun p => "\x27" ++ p.1 ++ "\x27: " ++ toString p.2))
    ++ "\x7d"

/-- The analysis prompt of `get_ai_analysis` (src/analysis.py lines 27-43). -/
def analysis_prompt_text (start_date end_date : String) (td tw da : Nat)
    (mg wt dl : List (String × Nat)) : String :=
  "\n        As a fitness expert, analyze the workout history from " ++ start_date
    ++ " to " ++ end_date ++ " (" ++ toString td ++ " days):\n        - Total exercises performed: "
    ++ toString tw ++ "\n        - Active days: " ++ toString da
    ++ "\n        - Muscle groups targeted (with frequency): " ++ pyDict mg
    ++ "\n        - Types of workouts performed: " ++ pyDict wt
    ++ "\n        - Difficulty levels: " ++ pyDict dl
    ++ "\n\n        Provide a brief analysis including:\n        1. Overall consistency and commitment\n        2. Balance of muscle groups (any imbalances?)\n        3. Progression in difficulty over this time period\n        4. Specific recommendations for improvement based on this time period\n        Keep the analysis concise but specific to this user's data.\n        Consider the time period when making your analysis - if it's a short period, focus on initial progress. \n        If it's longer, focus on trends and progression.\n        "

/-- The period line prepended to the returned analysis
(src/analysis.py line 55). -/
def period_context (start_date end_date : String) (td : Nat) : String :=
  "\nAnalysis Period: " ++ start_date ++ " to " ++ end_date ++ " ("
    ++ toString td ++ " days)"

/-- `get_ai_analysis` (src/analysis.py lines 8-60).  The whole body sits in one
`try`: the date formatting raises on an empty frame (modelled by
`strftime_nat` returning `.error`), and `complete` models the
`client.chat.completions.create` call plus content extraction, raising as
`.error`.  Every raised exception reaches the single except-branch, which
returns `"Unable to generate AI analysis: " ++ str(e)`. -/
def get_ai_analysis (entries : List Entry)
    (complete : String → Except String String) : String :=
  match strftime_nat (dateColumn entries).min?, strftime_nat (dateColumn entries).max? with
  | .ok start_date, .ok end_date =>
      match complete (analysis_prompt_text start_date end_date
          (total_days entries) (total_workouts entries) (days_active entries)
          (muscle_groups entries) (workout_types entries) (difficulty_levels entries)) with
      | .ok analysis =>
          period_context start_date end_date (total_days entries) ++ "\n\n" ++ analysis
      | .error e => "Unable to generate AI analysis: " ++ e
  | .error e, _ => "Unable to generate AI analysis: " ++ e
  | .ok _, .error e => "Unable to generate AI analysis: " ++ e

/-- The composed exercise-history filter (src/analysis.py lines 200-206):
starting from `df.copy()`, each of the three selections that is not `'All'`
narrows the frame by an equality mask on its column.  Boolean-mask selection
keeps surviving rows in order, i.e. it is `List.filter`. -/
def filtered_df (selected_type selected_muscle selected_difficulty : String)
    (df : List Entry) : List Entry :=
  let f1 := if selected_type ≠ "All"
    then df.filter (fun e => e.workout_type == selected_type) else df
  let f2 := if selected_muscle ≠ "All"
    then f1.filter (fun e => e.muscle_group == selected_muscle) else f1
  if selected_difficulty ≠ "All"
    then f2.filter (fun e => e.difficulty == selected_difficulty) else f2

/-- The date order used by `sort_values('date', ...)`. -/
def dateLe (a b : Entry) : Prop := a.date ≤ b.date

instance : DecidableRel dateLe := fun a b => Nat.decLe a.date b.date

instance : IsTotal Entry dateLe := ⟨fun a b => Nat.le_total a.date b.date⟩

instance : IsTrans Entry dateLe := ⟨fun _ _ _ h h' => Nat.le_trans h h'⟩

/-- `sort_values('date', ascending=False)` (src/analysis.py line 215).  pandas
computes this through `nargsort`: for a descending sort the values and their
positions are reversed, an ascending argsort is taken, and the resulting
indexer is reversed again.  The call uses the default `kind='quicksort'`,
whose argsort numpy documents as unstable: the relative order of equal dates
in the output is implementation-defined (numpy's introsort only degenerates
to a stable insertion sort below its 16-element cutoff).  This definition
fixes one admissible outcome — the one produced by the stable kinds and by
sub-cutoff frames, a stable ascending insertion sort between the two
reversals — so only its properties that hold for every admissible tie order
(which rows appear, and the descending date order) are properties of the
program. -/
def sort_values_date_desc (df : List Entry) : List Entry :=
  (List.insertionSort dateLe df.reverse).reverse

/-- The rows of the exercise-history table as displayed (src/analysis.py
lines 214-217): the filtered frame sorted by date descending.  (The
`display_columns` projection only selects columns and does not move rows, and
`df.copy()` makes the whole pipeline a pure projection of the source frame.) -/
def exercise_history_rows (selected_type selected_muscle selected_difficulty : String)
    (df : List Entry) : List Entry :=
  sort_values_date_desc (filtered_df selected_type selected_muscle selected_difficulty df)

/-- The spec's description of the filter as one predicate: each criterion equal
to `"All"` imposes no constraint, and the given criteria compose with logical
AND.  Stated separately from `filtered_df` (which chains three masks) so their
agreement is a theorem. -/
def matches_all_criteria (selected_type selected_muscle selected_difficulty : String)
    (e : Entry) : Bool :=
  (selected_type == "All" || e.workout_type == selected_type)
    && (selected_muscle == "All" || e.muscle_group == selected_muscle)
    && (selected_difficulty == "All" || e.difficulty == selected_difficulty)

/-- A two-entry demonstration log: chest on day 1 (2024-01-01) and back on
day 3 (2024-01-03). -/
def demoLog : List Entry :=
  [{ date := 1, exercise_name := "bench press", muscle_group := "chest",
     workout_type := "strength", difficulty := "medium" },
   { date := 3, exercise_name := "barbell row", muscle_group := "back",
     workout_type := "strength", difficulty := "medium" }]

/-- A demonstration exercise record. -/
def demoExercise : Exercise :=
  { name := "Bench Press", instructions := "Lie flat on the bench and press." }

/-- The first `n` characters of a string are at most `n` characters. -/
lemma pyslice_length_le (s : String) (n : Nat) : (pyslice s n).length ≤ n := by
  have h : (pyslice s n).length = (s.data.take n).length := rfl
  rw [h, List.length_take]
  omega

/-- The first `n` characters of a string are a prefix of it. -/
lemma pyslice_isPrefix (s : String) (n : Nat) : (pyslice s n).data <+: s.data :=
  List.take_prefix n s.data

/-- C4: the exercise list composed into the prompt has `min (number of records) 3`
items — never more than 3, and all records when fewer than 3 are returned —
and each item is the bullet line whose instruction text is the first
100 characters of the record's instructions followed by the `"..."` ellipsis
marker. -/
theorem C4_exercise_list_cap (exs : List Exercise) :
    (exercise_items exs).length = min exs.length 3
    ∧ (exs.length ≤ 3 → exercise_items exs = exs.map exercise_item)
    ∧ ∀ s ∈ exercise_items exs, ∃ ex ∈ exs,
        s = "• " ++ ex.name ++ ": " ++ pyslice ex.instructions 100 ++ "..."
        ∧ (pyslice ex.instructions 100).length ≤ 100
        ∧ (pyslice ex.instructions 100).data <+: ex.instructions.data := by
  refine ⟨?_, ?_, ?_⟩
  · simp only [exercise_items, List.length_map, List.length_take]
    omega
  · intro h
    simp [exercise_items, List.take_of_length_le h]
  · intro s hs
    rcases List.mem_map.1 hs with ⟨ex, hex, rfl⟩
    exact ⟨ex, List.take_subset 3 exs hex, rfl,
      pyslice_length_le ex.instructions 100, pyslice_isPrefix ex.instructions 100⟩

/-- Witness for C4 at a single-record lookup result. -/
theorem C4_exercise_list_cap_witness :
    [demoExercise].length ≤ 3
    ∧ exercise_items [demoExercise] = [demoExercise].map exercise_item :=
  ⟨by decide, (C4_exercise_list_cap [demoExercise]).2.1 (by decide)⟩

/-- C5: whenever the completion call behind the muscle-group extraction raises
(network, auth, malformed response), `extract_muscle_group` returns exactly the
sentinel `"none"` instead of propagating the failure. -/
theorem C5_extract_failure_sentinel (text : String)
    (complete : List Message → Except String String) (e : String)
    (h : complete (extract_prompt text) = .error e) :
    extract_muscle_group text complete = "none" := by
  simp [extract_muscle_group, h]

/-- Witness for C5: a completion that fails with a network error. -/
theorem C5_extract_failure_sentinel_witness :
    extract_muscle_group "recommend a workout"
      (fun _ => .error "APIConnectionError") = "none" :=
  C5_extract_failure_sentinel "recommend a workout" _ "APIConnectionError" rfl

/-- C6 counterexample: when the model responds with the empty string, the
extraction result is the empty string — not a muscle-group label and not the
sentinel `"none"` — so the result is not confined to known labels and `"none"`. -/
theorem C6_empty_response_counterexample :
    extract_muscle_group "Tell me about workouts"
      (fun _ => .ok "") = ""
    ∧ ("" : String) ≠ "none" :=
  ⟨rfl, by decide⟩

/-- C6 amended: the extraction result is either the sentinel `"none"` (when the
completion call fails) or the lower-cased model response taken verbatim; the
code performs no validation, so the result is a known muscle-group label only
insofar as the model complies with the classification instruction. -/
theorem C6_extract_result_shape (text : String)
    (complete : List Message → Except String String) :
    extract_muscle_group text complete = "none"
    ∨ ∃ resp, complete (extract_prompt text) = .ok resp
        ∧ extract_muscle_group text complete = pyLower resp := by
  cases h : complete (extract_prompt text) with
  | ok resp => exact Or.inr ⟨resp, rfl, by simp [extract_muscle_group, h]⟩
  | error e => exact Or.inl (by simp [extract_muscle_group, h])

/-- Witness for C6 amended: an upper-case model response is lower-cased. -/
theorem C6_extract_result_shape_witness :
    extract_muscle_group "work my chest"
        (fun _ => (.ok "CHEST" : Except String String)) = "none"
    ∨ ∃ resp, (fun _ : List Message => (.ok "CHEST" : Except String String))
          (extract_prompt "work my chest") = .ok resp
        ∧ extract_muscle_group "work my chest"
            (fun _ => (.ok "CHEST" : Except String String)) = pyLower resp :=
  C6_extract_result_shape "work my chest" _

/-- C9: the lookup sends the lower-cased muscle group to the fixed API Ninjas
endpoint with the API-key header, and on any transport failure or non-2xx
response (both raised by `requests.get` / `raise_for_status`) it reports the
error and returns the empty list rather than raising; on success it returns
the decoded records. -/
theorem C9_lookup_boundary (muscle api_key : String)
    (transport : HttpRequest → Except String (List Exercise)) :
    (build_exercise_request api_key muscle).url = "https://api.api-ninjas.com/v1/exercises"
    ∧ (build_exercise_request api_key muscle).api_key_header = api_key
    ∧ (build_exercise_request api_key muscle).muscle_param = pyLower muscle
    ∧ (∀ e, transport (build_exercise_request api_key muscle) = .error e →
        get_exercise_info muscle transport api_key =
          ([], some ("Error fetching exercise data: " ++ e)))
    ∧ ∀ recs, transport (build_exercise_request api_key muscle) = .ok recs →
        get_exercise_info muscle transport api_key = (recs, none) := by
  refine ⟨rfl, rfl, rfl, ?_, ?_⟩
  · intro e h
    simp [get_exercise_info, h]
  · intro recs h
    simp [get_exercise_info, h]

/-- Witness for C9: a 404 response raised by `raise_for_status`. -/
theorem C9_lookup_boundary_witness :
    get_exercise_info "Biceps" (fun _ => .error "404 Client Error") "key" =
      ([], some ("Error fetching exercise data: " ++ "404 Client Error")) :=
  ((C9_lookup_boundary "Biceps" "key" _).2.2.2.1 "404 Client Error" rfl)

/-- C1: the Chat Orchestrator's prompt construction is a three-way branch on
the extraction result and the lookup result: a non-`"none"` muscle group with
at least one record yields system + user + a synthetic assistant message
listing the exercises; a non-`"none"` muscle group with zero records yields
system + user + the synthetic no-match assistant message (general-advice
branch); extraction result `"none"` yields system + user only, with no
synthetic assistant turn. -/
theorem C1_branch_selection (equipment : List String) (prompt mg : String)
    (exs : List Exercise) :
    (mg ≠ "none" → exs ≠ [] →
        build_messages equipment prompt mg exs =
          [{ role := "system", content := system_full equipment },
           { role := "user", content := prompt },
           { role := "assistant", content := found_content mg (exercise_info exs) }]
        ∧ (build_messages equipment prompt mg exs).map Message.role
            = ["system", "user", "assistant"])
    ∧ (mg ≠ "none" → exs = [] →
        build_messages equipment prompt mg exs =
          [{ role := "system", content := system_nomatch equipment },
           { role := "user", content := prompt },
           { role := "assistant", content := nomatch_content mg }]
        ∧ (build_messages equipment prompt mg exs).map Message.role
            = ["system", "user", "assistant"])
    ∧ (mg = "none" →
        build_messages equipment prompt mg exs =
          [{ role := "system", content := system_plain equipment },
           { role := "user", content := prompt }]
        ∧ (build_messages equipment prompt mg exs).map Message.role
            = ["system", "user"]) := by
  refine ⟨fun h1 h2 => ?_, fun h1 h2 => ?_, fun h1 => ?_⟩
  · simp [build_messages, h1, h2]
  · simp [build_messages, h1, h2]
  · simp [build_messages, h1]

/-- Witness for C1, covering all three branches, including the spec's
scenario: extraction `"biceps"` with a lookup returning 0 records selects the
no-match general-advice branch (three messages ending in the no-match
assistant turn), not the two-message `"none"` branch. -/
theorem C1_branch_selection_witness :
    (build_messages ["Dumbbell"] "chest day" "chest" [demoExercise]).map Message.role
        = ["system", "user", "assistant"]
    ∧ build_messages ["Dumbbell"] "train my biceps" "biceps" [] =
        [{ role := "system", content := system_nomatch ["Dumbbell"] },
         { role := "user", content := "train my biceps" },
         { role := "assistant", content := nomatch_content "biceps" }]
    ∧ (build_messages ["Dumbbell"] "hello there" "none" []).map Message.role
        = ["system", "user"] :=
  ⟨((C1_branch_selection ["Dumbbell"] "chest day" "chest" [demoExercise]).1
      (by decide) (by decide)).2,
   ((C1_branch_selection ["Dumbbell"] "train my biceps" "biceps" []).2.1
      (by decide) rfl).1,
   ((C1_branch_selection ["Dumbbell"] "hello there" "none" []).2.2 rfl).2⟩

/-- C7: when the chat completion call fails, `generate_chat_response` returns
the fixed apologetic string and surfaces the error, and the orchestrator still
appends that fallback text as the assistant turn, so the persisted transcript
equals the history followed by the user turn and then the assistant turn. -/
theorem C7_chat_fallback_transcript (equipment : List String) (api_key : String)
    (history : List Message) (prompt : String)
    (extract_complete : List Message → Except String String)
    (transport : HttpRequest → Except String (List Exercise))
    (chat_complete : List Message → Except String String) (e : String)
    (h : ∀ msgs, chat_complete msgs = .error e) :
    (∀ msgs, generate_chat_response (chat_complete msgs) =
        { text := fallback_response
          surfaced_error := some ("Error generating response: " ++ e) })
    ∧ chat_turn equipment api_key history prompt extract_complete transport chat_complete
        = history ++ [{ role := "user", content := prompt },
                      { role := "assistant", content := fallback_response }] := by
  constructor
  · intro msgs
    simp [generate_chat_response, h msgs]
  · simp [chat_turn, generate_chat_response, h]

/-- Witness for C7: a turn whose chat completion raises. -/
theorem C7_chat_fallback_transcript_witness :
    chat_turn ["Dumbbell"] "key" [] "leg day plan"
        (fun _ => .ok "legs") (fun _ => .ok [demoExercise])
        (fun _ => .error "RateLimitError")
      = [{ role := "user", content := "leg day plan" },
         { role := "assistant", content := fallback_response }] := by
  have h := (C7_chat_fallback_transcript ["Dumbbell"] "key" [] "leg day plan"
    (fun _ => .ok "legs") (fun _ => .ok [demoExercise])
    (fun _ => .error "RateLimitError") "RateLimitError" (fun _ => rfl)).2
  simpa using h

/-- A nonempty list of naturals has a minimum and a maximum. -/
lemma minmax_exists_of_ne_nil (l : List Nat) (h : l ≠ []) :
    (∃ a, l.min? = some a) ∧ ∃ b, l.max? = some b := by
  constructor
  · cases hm : l.min? with
    | none => exact absurd (List.min?_eq_none_iff.1 hm) h
    | some a => exact ⟨a, rfl⟩
  · cases hm : l.max? with
    | none => exact absurd (List.max?_eq_none_iff.1 hm) h
    | some b => exact ⟨b, rfl⟩

/-- The date column of a nonempty log is nonempty. -/
lemma dateColumn_ne_nil {entries : List Entry} (h : entries ≠ []) :
    dateColumn entries ≠ [] := by
  simpa [dateColumn] using h

/-- C8: for a nonempty log, if the completion request behind the
workout-history analysis fails (raises, including mid-request), the analysis
function returns the literal `"Unable to generate AI analysis: " ++ error`
string — not a partial analysis and not a raised exception. -/
theorem C8_analysis_error_fallback (entries : List Entry)
    (complete : String → Except String String) (e : String)
    (hne : entries ≠ []) (h : ∀ p, complete p = .error e) :
    get_ai_analysis entries complete = "Unable to generate AI analysis: " ++ e := by
  obtain ⟨⟨a, ha⟩, ⟨b, hb⟩⟩ := minmax_exists_of_ne_nil _ (dateColumn_ne_nil hne)
  simp [get_ai_analysis, ha, hb, strftime_nat, h]

/-- Witness for C8: the demonstration log with a failing completion. -/
theorem C8_analysis_error_fallback_witness :
    get_ai_analysis demoLog (fun _ => .error "APIStatusError 500") =
      "Unable to generate AI analysis: " ++ "APIStatusError 500" :=
  C8_analysis_error_fallback demoLog _ "APIStatusError 500" (by decide) (fun _ => rfl)

/-- C10: the analysis function is total.  On the empty log the date reduction
yields `NaT` and its `strftime` raise is caught and mapped to the fallback
string, and on every input the result is either the fallback string carrying
the error text or the period context followed by the completion's analysis —
never a raised exception. -/
theorem C10_analysis_total (entries : List Entry)
    (complete : String → Except String String) :
    (entries = [] →
        get_ai_analysis entries complete =
          "Unable to generate AI analysis: NaTType does not support strftime")
    ∧ ((∃ e, get_ai_analysis entries complete = "Unable to generate AI analysis: " ++ e)
        ∨ ∃ s t a, get_ai_analysis entries complete =
            period_context s t (total_days entries) ++ "\n\n" ++ a) := by
  constructor
  · intro h
    subst h
    rfl
  · cases hmin : (dateColumn entries).min? with
    | none =>
        exact Or.inl ⟨"NaTType does not support strftime",
          by simp [get_ai_analysis, hmin, strftime_nat]⟩
    | some a =>
        cases hmax : (dateColumn entries).max? with
        | none =>
            exact Or.inl ⟨"NaTType does not support strftime",
              by simp [get_ai_analysis, hmin, hmax, strftime_nat]⟩
        | some b =>
            cases hc : complete (analysis_prompt_text (fmtDate a) (fmtDate b)
                (total_days entries) (total_workouts entries) (days_active entries)
                (muscle_groups entries) (workout_types entries)
                (difficulty_levels entries)) with
            | ok an =>
                exact Or.inr ⟨fmtDate a, fmtDate b, an,
                  by simp [get_ai_analysis, hmin, hmax, strftime_nat, hc]⟩
            | error e =>
                exact Or.inl ⟨e,
                  by simp [get_ai_analysis, hmin, hmax, strftime_nat, hc]⟩

/-- Witness for C10: the empty log maps to the NaT-formatting fallback even
when the completion itself would succeed. -/
theorem C10_analysis_total_witness :
    get_ai_analysis [] (fun _ => .ok "Great progress.") =
      "Unable to generate AI analysis: NaTType does not support strftime" :=
  (C10_analysis_total [] (fun _ => .ok "Great progress.")).1 rfl

/-- Looking up a key of a key-value table built by mapping a function over a
key list returns that function's value at the key. -/
lemma lookup_map_pair (f : String → Nat) :
    ∀ (l : List String) (v : String), v ∈ l →
      (l.map (fun u => (u, f u))).lookup v = some (f v) := by
  intro l v h
  induction l with
  | nil => cases h
  | cons a t ih =>
      by_cases hv : v = a
      · subst hv
        simp [List.lookup]
      · have hvt : v ∈ t := by
          cases List.mem_cons.1 h with
          | inl h' => exact absurd h' hv
          | inr h' => exact h'
        have hba : (v == a) = false := beq_eq_false_iff_ne.2 hv
        simp [List.lookup, hba, ih hvt]

/-- A `value_counts().to_dict()` table maps every value occurring in the
column to its number of occurrences. -/
lemma lookup_value_counts (vals : List String) (v : String) (h : v ∈ vals) :
    (value_counts_dict vals).lookup v = some (vals.count v) :=
  lookup_map_pair (fun u => vals.count u) vals.dedup v (List.mem_dedup.2 h)

/-- C2: for every nonempty log, `total_days` is the inclusive span
`max - min + 1` of the date column, `days_active` is the number of distinct
dates, `total_workouts` is the number of entries, and each frequency table
maps every occurring value to its count of occurrences. -/
theorem C2_summary_stats (entries : List Entry) (hne : entries ≠ []) :
    (∃ dmin dmax,
        (dateColumn entries).min? = some dmin
        ∧ (dateColumn entries).max? = some dmax
        ∧ dmin ∈ dateColumn entries ∧ dmax ∈ dateColumn entries
        ∧ (∀ d ∈ dateColumn entries, dmin ≤ d ∧ d ≤ dmax)
        ∧ total_days entries = dmax - dmin + 1)
    ∧ days_active entries = (dateColumn entries).toFinset.card
    ∧ total_workouts entries = entries.length
    ∧ (∀ en ∈ entries, (muscle_groups entries).lookup en.muscle_group
        = some ((entries.map (·.muscle_group)).count en.muscle_group))
    ∧ (∀ en ∈ entries, (workout_types entries).lookup en.workout_type
        = some ((entries.map (·.workout_type)).count en.workout_type))
    ∧ ∀ en ∈ entries, (difficulty_levels entries).lookup en.difficulty
        = some ((entries.map (·.difficulty)).count en.difficulty) := by
  obtain ⟨⟨dmin, hmin⟩, ⟨dmax, hmax⟩⟩ :=
    minmax_exists_of_ne_nil _ (dateColumn_ne_nil hne)
  have hminc := List.min?_eq_some_iff'.1 hmin
  have hmaxc := List.max?_eq_some_iff'.1 hmax
  refine ⟨⟨dmin, dmax, hmin, hmax, hminc.1, hmaxc.1, ?_, ?_⟩, ?_, rfl, ?_, ?_, ?_⟩
  · intro d hd
    exact ⟨hminc.2 d hd, hmaxc.2 d hd⟩
  · simp [total_days, hmin, hmax]
  · exact (List.card_toFinset _).symm
  · intro en hen
    exact lookup_value_counts _ _ (List.mem_map_of_mem (fun x => x.muscle_group) hen)
  · intro en hen
    exact lookup_value_counts _ _ (List.mem_map_of_mem (fun x => x.workout_type) hen)
  · intro en hen
    exact lookup_value_counts _ _ (List.mem_map_of_mem (fun x => x.difficulty) hen)

/-- Witness for C2 at the spec's two-entry scenario (chest on day 1, back on
day 3): span 3, two active days, two entries, and unit frequencies for chest
and back. -/
theorem C2_summary_stats_witness :
    (∀ en ∈ demoLog, (muscle_groups demoLog).lookup en.muscle_group
        = some ((demoLog.map (·.muscle_group)).count en.muscle_group))
    ∧ total_days demoLog = 3
    ∧ days_active demoLog = 2
    ∧ total_workouts demoLog = 2
    ∧ (muscle_groups demoLog).lookup "chest" = some 1
    ∧ (muscle_groups demoLog).lookup "back" = some 1 :=
  ⟨(C2_summary_stats demoLog (by decide)).2.2.2.1,
   by decide, by decide, by decide, by decide, by decide⟩

/-- A single optional criterion: skipping the mask when the selection is
`"All"` agrees with disjoining `selection == "All"` into the mask. -/
lemma criterion_filter_step (sel : String) (get : Entry → String) (df : List Entry) :
    (if sel ≠ "All" then df.filter (fun e => get e == sel) else df)
      = df.filter (fun e => sel == "All" || get e == sel) := by
  by_cases h : sel = "All"
  · subst h
    simp
  · rw [if_pos h]
    apply List.filter_congr
    intro e he
    have hb : (sel == "All") = false := beq_eq_false_iff_ne.2 h
    simp [hb]

/-- The workout-type criterion step. -/
lemma type_filter_step (t : String) (df : List Entry) :
    (if t ≠ "All" then df.filter (fun e => e.workout_type == t) else df)
      = df.filter (fun e => t == "All" || e.workout_type == t) :=
  criterion_filter_step t (fun e => e.workout_type) df

/-- The muscle-group criterion step. -/
lemma muscle_filter_step (m : String) (df : List Entry) :
    (if m ≠ "All" then df.filter (fun e => e.muscle_group == m) else df)
      = df.filter (fun e => m == "All" || e.muscle_group == m) :=
  criterion_filter_step m (fun e => e.muscle_group) df

/-- The difficulty criterion step. -/
lemma difficulty_filter_step (d : String) (df : List Entry) :
    (if d ≠ "All" then df.filter (fun e => e.difficulty == d) else df)
      = df.filter (fun e => d == "All" || e.difficulty == d) :=
  criterion_filter_step d (fun e => e.difficulty) df

/-- The three sequential masks of src/analysis.py lines 200-206 compose to the
single AND of the three optional criteria. -/
lemma filtered_df_eq_filter (t m d : String) (df : List Entry) :
    filtered_df t m d df = df.filter (matches_all_criteria t m d) := by
  simp only [filtered_df]
  rw [type_filter_step t df, muscle_filter_step m _, difficulty_filter_step d _,
    List.filter_filter, List.filter_filter]
  apply List.filter_congr
  intro e he
  simp only [matches_all_criteria]
  cases t == "All" || e.workout_type == t <;>
    cases m == "All" || e.muscle_group == m <;>
      cases d == "All" || e.difficulty == d <;> rfl

/-- The descending date sort is a permutation of its input. -/
lemma sort_values_perm (l : List Entry) : (sort_values_date_desc l).Perm l := by
  unfold sort_values_date_desc
  exact (List.reverse_perm _).trans
    ((List.perm_insertionSort dateLe _).trans (List.reverse_perm l))

/-- The descending date sort is sorted by date, descending. -/
lemma sort_values_sorted (l : List Entry) :
    List.Pairwise (fun a b : Entry => b.date ≤ a.date) (sort_values_date_desc l) := by
  unfold sort_values_date_desc
  refine List.pairwise_reverse.2 ?_
  exact (List.sorted_insertionSort dateLe l.reverse).imp (fun h => h)

/-- Whatever tie order the argsort kind produces, the displayed rows are the
filtered rows (membership and multiplicity): every admissible sort output is
a permutation; this one in particular. -/
lemma exercise_history_rows_perm (t m d : String) (df : List Entry) :
    (exercise_history_rows t m d df).Perm (df.filter (matches_all_criteria t m d)) := by
  rw [show exercise_history_rows t m d df
      = sort_values_date_desc (filtered_df t m d df) from rfl,
    filtered_df_eq_filter]
  exact sort_values_perm _
